import Mathlib

/-!
Verification of the user and message subsystems of a small chat backend.

The development embeds the two service modules (user.service, message.service)
and the HTTP boundary handlers (user.controller, message.controller) as pure
Lean functions.  The external document store is modelled explicitly: a store
call is a function that either returns a result computed from the current
collection contents or throws (modelled by a Bool fault flag turning the call
into an `Except.error`).  Each service function wraps its body in `tryCatchE`,
mirroring the try/catch in the source; timestamps are naturals supplied as a
`now` parameter; store-assigned identifiers are naturals supplied as a `newId`
parameter.
-/

namespace FakeSO

/-- A raw store exception, as thrown by the underlying document store. -/
inductive StoreErr
  | ex
  deriving DecidableEq, Repr

/-- Models a try/catch block whose handler returns normally (never rethrows):
the body may throw, the catch converts the exception into a plain value. -/
def tryCatchE {α : Type} (body : Except StoreErr α) (handler : StoreErr → α) :
    Except StoreErr α :=
  match body with
  | Except.ok a => Except.ok a
  | Except.error e => Except.ok (handler e)

/-- The user shape supplied by callers of saveUser: username, password and a
caller-supplied dateJoined (the service ignores the latter). -/
structure User where
  username : String
  password : String
  dateJoined : Nat
  deriving DecidableEq, Repr

/-- A user document as stored in the database, with its store-assigned id. -/
structure DbUser where
  _id : Nat
  username : String
  password : String
  dateJoined : Nat
  deriving DecidableEq, Repr

/-- Credentials supplied to the login operation. -/
structure UserCredentials where
  username : String
  password : String
  deriving DecidableEq, Repr

/-- A JSON field value: the safe projections carry a numeric id, a string
username and a numeric date. -/
inductive FieldVal
  | nat (n : Nat)
  | str (s : String)
  deriving DecidableEq, Repr

/-- A JSON object, as a list of key-value pairs in construction order. -/
abbrev UserJson := List (String × FieldVal)

/-- The keys of a JSON object. -/
def jsonKeys (fields : UserJson) : List String := fields.map Prod.fst

/-- The result of a user service operation: either the safe user object built
by the service (an object literal, field by field) or a tagged error. -/
inductive UserResponse
  | user (fields : UserJson)
  | err (msg : String)
  deriving DecidableEq, Repr

/-- UserModel.findOne with a username filter: first stored document whose
username equals the filter value, if any. -/
def findOne (db : List DbUser) (username : String) : Option DbUser :=
  db.find? (fun u => u.username == username)

/-- The findOne store call: throws when the store faults, otherwise returns
the lookup result. -/
def findOneE (fault : Bool) (db : List DbUser) (username : String) :
    Except StoreErr (Option DbUser) :=
  if fault then Except.error StoreErr.ex else Except.ok (findOne db username)

/-- The UserModel.create store call: throws when the store faults, otherwise
appends a new document (with the store-assigned id) and returns it. -/
def createE (fault : Bool) (db : List DbUser) (newId : Nat)
    (username password : String) (dateJoined : Nat) :
    Except StoreErr (DbUser × List DbUser) :=
  if fault then Except.error StoreErr.ex
  else
    let newUser : DbUser :=
      { _id := newId, username := username, password := password,
        dateJoined := dateJoined }
    Except.ok (newUser, db ++ [newUser])

/-- saveUser: checks for an existing username, then creates the user with the
current date as dateJoined, returning the user without the password; any store
exception is caught and converted into the Failed-to-save error. -/
def saveUserE (findFault createFault : Bool) (db : List DbUser)
    (now newId : Nat) (user : User) :
    Except StoreErr (UserResponse × List DbUser) :=
  tryCatchE
    (do
      let existingUser ← findOneE findFault db user.username
      match existingUser with
      | some _ => pure (UserResponse.err "Username already exists", db)
      | none => do
          let (newUser, db2) ←
            createE createFault db newId user.username user.password now
          pure (UserResponse.user
            [("_id", FieldVal.nat newUser._id),
             ("username", FieldVal.str newUser.username),
             ("dateJoined", FieldVal.nat newUser.dateJoined)], db2))
    (fun _ => (UserResponse.err "Failed to save user", db))

/-- getUserByUsername: looks the user up and returns the safe projection, or
the not-found error; any store exception becomes the Failed-to-get error. -/
def getUserByUsernameE (fault : Bool) (db : List DbUser) (username : String) :
    Except StoreErr UserResponse :=
  tryCatchE
    (do
      let user ← findOneE fault db username
      match user with
      | none => pure (UserResponse.err "User not found")
      | some u => pure (UserResponse.user
          [("_id", FieldVal.nat u._id),
           ("username", FieldVal.str u.username),
           ("dateJoined", FieldVal.nat u.dateJoined)]))
    (fun _ => UserResponse.err "Failed to get user")

/-- loginUser: looks the user up by username and compares the stored password
with the supplied one in plain text; a missing user and a wrong password
produce the same error value; a store exception becomes the login failure. -/
def loginUserE (fault : Bool) (db : List DbUser)
    (loginCredentials : UserCredentials) : Except StoreErr UserResponse :=
  tryCatchE
    (do
      let user ← findOneE fault db loginCredentials.username
      match user with
      | none => pure (UserResponse.err "Invalid username or password")
      | some u =>
          if u.password ≠ loginCredentials.password then
            pure (UserResponse.err "Invalid username or password")
          else
            pure (UserResponse.user
              [("_id", FieldVal.nat u._id),
               ("username", FieldVal.str u.username),
               ("dateJoined", FieldVal.nat u.dateJoined)]))
    (fun _ => UserResponse.err "Failed to login")

/-- Removes the first stored document with the given username. -/
def removeFirst (db : List DbUser) (username : String) : List DbUser :=
  match db with
  | [] => []
  | u :: rest =>
      if u.username == username then rest else u :: removeFirst rest username

/-- The findOneAndDelete store call: throws on fault; otherwise removes and
returns the first match, if any. -/
def findOneAndDeleteE (fault : Bool) (db : List DbUser) (username : String) :
    Except StoreErr (Option DbUser × List DbUser) :=
  if fault then Except.error StoreErr.ex
  else
    match findOne db username with
    | none => Except.ok (none, db)
    | some u => Except.ok (some u, removeFirst db username)

/-- deleteUserByUsername: deletes the matching user and returns its safe
projection, or the not-found error; a store exception becomes the delete
failure. -/
def deleteUserByUsernameE (fault : Bool) (db : List DbUser)
    (username : String) : Except StoreErr (UserResponse × List DbUser) :=
  tryCatchE
    (do
      let (user, db2) ← findOneAndDeleteE fault db username
      match user with
      | none => pure (UserResponse.err "User not found", db2)
      | some u => pure (UserResponse.user
          [("_id", FieldVal.nat u._id),
           ("username", FieldVal.str u.username),
           ("dateJoined", FieldVal.nat u.dateJoined)], db2))
    (fun _ => (UserResponse.err "Failed to delete user", db))

/-- The update payload of updateUser, a subset of the User fields (the source
type Partial of User): absent fields are not touched by the set operation. -/
structure UserUpdates where
  username : Option String := none
  password : Option String := none
  dateJoined : Option Nat := none
  deriving DecidableEq, Repr

/-- Applies a set operation to one document: each present field overwrites
the stored value, each absent field is kept. -/
def applySet (u : DbUser) (upd : UserUpdates) : DbUser :=
  { _id := u._id,
    username := upd.username.getD u.username,
    password := upd.password.getD u.password,
    dateJoined := upd.dateJoined.getD u.dateJoined }

/-- Replaces the first stored document with the given username by its updated
version. -/
def updateFirst (db : List DbUser) (username : String) (upd : UserUpdates) :
    List DbUser :=
  match db with
  | [] => []
  | u :: rest =>
      if u.username == username then applySet u upd :: rest
      else u :: updateFirst rest username upd

/-- The findOneAndUpdate store call with the new-document option: throws on
fault; otherwise updates the first match in place and returns the updated
document, if any. -/
def findOneAndUpdateE (fault : Bool) (db : List DbUser) (username : String)
    (upd : UserUpdates) : Except StoreErr (Option DbUser × List DbUser) :=
  if fault then Except.error StoreErr.ex
  else
    match findOne db username with
    | none => Except.ok (none, db)
    | some u => Except.ok (some (applySet u upd), updateFirst db username upd)

/-- updateUser: applies the supplied subset of field changes to the matching
user and returns the updated safe projection, or the not-found error; a store
exception becomes the update failure. -/
def updateUserE (fault : Bool) (db : List DbUser) (username : String)
    (updates : UserUpdates) : Except StoreErr (UserResponse × List DbUser) :=
  tryCatchE
    (do
      let (user, db2) ← findOneAndUpdateE fault db username updates
      match user with
      | none => pure (UserResponse.err "User not found", db2)
      | some u => pure (UserResponse.user
          [("_id", FieldVal.nat u._id),
           ("username", FieldVal.str u.username),
           ("dateJoined", FieldVal.nat u.dateJoined)], db2))
    (fun _ => (UserResponse.err "Failed to update user", db))

/-- The message shape supplied by callers of addMessage: body, sender, and an
optional datetime (absent means the service supplies the current time). -/
structure Message where
  msg : String
  msgFrom : String
  msgDateTime : Option Nat
  deriving DecidableEq, Repr

/-- A message document as stored in the database, with its store-assigned id
and its resolved datetime. -/
structure StoredMessage where
  _id : Nat
  msg : String
  msgFrom : String
  msgDateTime : Nat
  deriving DecidableEq, Repr

/-- The result of saveMessage: the stored document or a tagged error. -/
inductive MessageResponse
  | msg (m : StoredMessage)
  | err (e : String)
  deriving DecidableEq, Repr

/-- The MessageModel.create store call: throws when the store faults,
otherwise appends the new document (with the store-assigned id) and returns
it. -/
def msgCreateE (fault : Bool) (db : List StoredMessage) (newId : Nat)
    (msg msgFrom : String) (msgDateTime : Nat) :
    Except StoreErr (StoredMessage × List StoredMessage) :=
  if fault then Except.error StoreErr.ex
  else
    let newMessage : StoredMessage :=
      { _id := newId, msg := msg, msgFrom := msgFrom,
        msgDateTime := msgDateTime }
    Except.ok (newMessage, db ++ [newMessage])

/-- saveMessage: creates the message, defaulting msgDateTime to the current
time when the caller supplied none, and returns the stored document; any
store exception becomes the Failed-to-save-message error. -/
def saveMessageE (fault : Bool) (db : List StoredMessage) (now newId : Nat)
    (message : Message) :
    Except StoreErr (MessageResponse × List StoredMessage) :=
  tryCatchE
    (do
      let (newMessage, db2) ←
        msgCreateE fault db newId message.msg message.msgFrom
          (message.msgDateTime.getD now)
      pure (MessageResponse.msg newMessage, db2))
    (fun _ => (MessageResponse.err "Failed to save message", db))

/-- The sort key relation used by the find-and-sort store call: ascending
msgDateTime. -/
def msgDateLE (a b : StoredMessage) : Prop := a.msgDateTime ≤ b.msgDateTime

instance : DecidableRel msgDateLE := fun a b => Nat.decLe a.msgDateTime b.msgDateTime

instance : IsTotal StoredMessage msgDateLE := ⟨fun a b => Nat.le_total a.msgDateTime b.msgDateTime⟩

instance : IsTrans StoredMessage msgDateLE := ⟨fun _ _ _ => Nat.le_trans⟩

/-- The MessageModel.find().sort store call with ascending msgDateTime:
throws when the store faults, otherwise returns all stored messages sorted by
msgDateTime ascending. -/
def findSortE (fault : Bool) (db : List StoredMessage) :
    Except StoreErr (List StoredMessage) :=
  if fault then Except.error StoreErr.ex
  else Except.ok (List.insertionSort msgDateLE db)

/-- getMessages: returns all messages sorted by datetime ascending; any store
exception is swallowed and becomes the empty list. -/
def getMessagesE (fault : Bool) (db : List StoredMessage) :
    Except StoreErr (List StoredMessage) :=
  tryCatchE
    (do
      let messages ← findSortE fault db
      pure messages)
    (fun _ => [])

/-- The addMessage request body: may be absent, and may lack the messageToAdd
payload. -/
structure MsgReqBody where
  messageToAdd : Option Message
  deriving DecidableEq, Repr

/-- The raw addMessage request. -/
structure AddMessageRequest where
  body : Option MsgReqBody
  deriving DecidableEq, Repr

/-- Models the JavaScript string trim: drops leading and trailing
whitespace.  Defined over the character list so that it is fully
computable. -/
def jsTrim (s : String) : String :=
  (((s.toList.dropWhile Char.isWhitespace).reverse.dropWhile
      Char.isWhitespace).reverse).asString

/-- isRequestValid from the message controller: the body and its messageToAdd
payload must both be present (truthy). -/
def isRequestValid (req : AddMessageRequest) : Bool :=
  match req.body with
  | none => false
  | some b => b.messageToAdd.isSome

/-- isMessageValid from the message controller: msg and msgFrom must be
truthy (non-empty) and non-empty after trimming. -/
def isMessageValid (message : Message) : Bool :=
  (message.msg ≠ "" : Bool) && (jsTrim message.msg).length > 0 &&
  (message.msgFrom ≠ "" : Bool) && (jsTrim message.msgFrom).length > 0

/-- One observable effect of the addMessage route, in order: the store write,
the socket emit, and the HTTP response. -/
inductive MsgEffect
  | storeCreate (m : StoredMessage)
  | emit (event : String) (payload : StoredMessage)
  | respondJsonMsg (status : Nat) (m : StoredMessage)
  | respondJsonErr (status : Nat) (e : String)
  | respondText (status : Nat) (s : String)
  deriving DecidableEq, Repr

/-- Recognises the socket emit effects in a route trace. -/
def isEmitEffect : MsgEffect → Bool
  | MsgEffect.emit _ _ => true
  | _ => false

/-- The addMessage route handler: validates the request and the message,
saves the message, emits the messageUpdate socket event with the stored
document, and responds; returns the trace of effects in order together with
the resulting store contents.  The two missing-payload branches are the
failing isRequestValid check; the outer catch responds 500. -/
def addMessageRoute (fault : Bool) (db : List StoredMessage) (now newId : Nat)
    (req : AddMessageRequest) : List MsgEffect × List StoredMessage :=
  match req.body with
  | none => ([MsgEffect.respondText 400 "Invalid request"], db)
  | some body =>
    match body.messageToAdd with
    | none => ([MsgEffect.respondText 400 "Invalid request"], db)
    | some messageToAdd =>
      if !isMessageValid messageToAdd then
        ([MsgEffect.respondText 400 "Invalid message"], db)
      else
        match saveMessageE fault db now newId messageToAdd with
        | Except.ok (MessageResponse.err e, db2) =>
            ([MsgEffect.respondJsonErr 500 e], db2)
        | Except.ok (MessageResponse.msg m, db2) =>
            ([MsgEffect.storeCreate m, MsgEffect.emit "messageUpdate" m,
              MsgEffect.respondJsonMsg 200 m], db2)
        | Except.error _ =>
            ([MsgEffect.respondJsonErr 500 "Failed to add message"], db)

/-- The request body of the user endpoints: username and password, each
possibly absent. -/
structure UserReqBody where
  username : Option String
  password : Option String
  deriving DecidableEq, Repr

/-- Truthiness of an optional string field: present and non-empty. -/
def optTruthy (s : Option String) : Bool :=
  match s with
  | none => false
  | some v => v ≠ ""

/-- isUserBodyValid from the user controller: username and password truthy,
the username non-empty after trimming, the password of positive length. -/
def isUserBodyValid (body : UserReqBody) : Bool :=
  optTruthy body.username && optTruthy body.password &&
  (jsTrim (body.username.getD "")).length > 0 &&
  (body.password.getD "").length > 0

/-- One observable effect of a user route: a service call or the HTTP
response. -/
inductive UserEffect
  | callSaveUser (u : User)
  | callLoginUser (c : UserCredentials)
  | callUpdateUser (username : String) (updates : UserUpdates)
  | respondText (status : Nat) (s : String)
  | respondJson (status : Nat) (r : UserResponse)
  deriving DecidableEq, Repr

/-- Recognises the service call effects in a user route trace. -/
def isServiceCall : UserEffect → Bool
  | UserEffect.callSaveUser _ => true
  | UserEffect.callLoginUser _ => true
  | UserEffect.callUpdateUser _ _ => true
  | _ => false

/-- The signup route handler: validates the body, builds the user with the
current date, calls saveUser, and maps the result to a status code. -/
def createUser (findFault createFault : Bool) (db : List DbUser)
    (now newId : Nat) (req : UserReqBody) : List UserEffect × List DbUser :=
  if !isUserBodyValid req then
    ([UserEffect.respondText 400 "Invalid user body"], db)
  else
    let user : User :=
      { username := req.username.getD "", password := req.password.getD "",
        dateJoined := now }
    match saveUserE findFault createFault db now newId user with
    | Except.ok (result, db2) =>
        match result with
        | UserResponse.err e =>
            if e == "Username already exists" then
              ([UserEffect.callSaveUser user,
                UserEffect.respondJson 400 (UserResponse.err e)], db2)
            else
              ([UserEffect.callSaveUser user,
                UserEffect.respondJson 500 (UserResponse.err e)], db2)
        | UserResponse.user fields =>
            ([UserEffect.callSaveUser user,
              UserEffect.respondJson 200 (UserResponse.user fields)], db2)
    | Except.error _ =>
        ([UserEffect.callSaveUser user,
          UserEffect.respondJson 500 (UserResponse.err "Internal server error")], db)

/-- The login route handler: validates the body, calls loginUser, and maps
the result to a status code. -/
def userLogin (fault : Bool) (db : List DbUser) (req : UserReqBody) :
    List UserEffect :=
  if !isUserBodyValid req then
    [UserEffect.respondText 400 "Invalid user body"]
  else
    let credentials : UserCredentials :=
      { username := req.username.getD "", password := req.password.getD "" }
    match loginUserE fault db credentials with
    | Except.ok result =>
        match result with
        | UserResponse.err e =>
            if e == "Invalid username or password" then
              [UserEffect.callLoginUser credentials,
               UserEffect.respondJson 401 (UserResponse.err e)]
            else
              [UserEffect.callLoginUser credentials,
               UserEffect.respondJson 500 (UserResponse.err e)]
        | UserResponse.user fields =>
            [UserEffect.callLoginUser credentials,
             UserEffect.respondJson 200 (UserResponse.user fields)]
    | Except.error _ =>
        [UserEffect.callLoginUser credentials,
         UserEffect.respondJson 500 (UserResponse.err "Internal server error")]

/-- The resetPassword route handler: checks username and password for
truthiness only (no trimming), calls updateUser with a password-only update,
and maps the result to a status code. -/
def resetPassword (fault : Bool) (db : List DbUser) (req : UserReqBody) :
    List UserEffect × List DbUser :=
  if !optTruthy req.username || !optTruthy req.password then
    ([UserEffect.respondText 400 "Invalid user body"], db)
  else
    let username := req.username.getD ""
    let password := req.password.getD ""
    match updateUserE fault db username { password := some password } with
    | Except.ok (result, db2) =>
        match result with
        | UserResponse.err e =>
            if e == "User not found" then
              ([UserEffect.callUpdateUser username { password := some password },
                UserEffect.respondJson 404 (UserResponse.err e)], db2)
            else
              ([UserEffect.callUpdateUser username { password := some password },
                UserEffect.respondJson 500 (UserResponse.err e)], db2)
        | UserResponse.user fields =>
            ([UserEffect.callUpdateUser username { password := some password },
              UserEffect.respondJson 200 (UserResponse.user fields)], db2)
    | Except.error _ =>
        ([UserEffect.callUpdateUser username { password := some password },
          UserEffect.respondJson 500 (UserResponse.err "Internal server error")], db)

/-- Claim C1: saveUser fails with the username-exists error whenever some
stored user already has the requested username, for every password involved;
otherwise it stores a new record whose dateJoined is the current time,
ignoring the caller-supplied dateJoined, and returns the safe projection of
the stored record, built from its id, username and dateJoined. -/
theorem saveUser_create_spec (db : List DbUser) (now newId : Nat)
    (user : User) :
    (∀ existing : DbUser, findOne db user.username = some existing →
       saveUserE false false db now newId user =
         Except.ok (UserResponse.err "Username already exists", db)) ∧
    (findOne db user.username = none →
       saveUserE false false db now newId user =
         Except.ok (UserResponse.user
           [("_id", FieldVal.nat newId),
            ("username", FieldVal.str user.username),
            ("dateJoined", FieldVal.nat now)],
          db ++ [{ _id := newId, username := user.username,
                   password := user.password, dateJoined := now }])) := by
  constructor
  · intro existing h
    simp [saveUserE, tryCatchE, findOneE, createE, h, Except.bind, Bind.bind, Pure.pure, Except.pure]
  · intro h
    simp [saveUserE, tryCatchE, findOneE, createE, h, Except.bind, Bind.bind, Pure.pure, Except.pure]

/-- Witness for C1: with user1 already stored under a different password, the
duplicate signup is rejected; with an empty store, the record is created with
dateJoined equal to the current time 7, not the caller-supplied 3. -/
theorem saveUser_create_spec_witness :
    (saveUserE false false
       [{ _id := 1, username := "user1", password := "pwOld", dateJoined := 5 }]
       7 2 { username := "user1", password := "pwNew", dateJoined := 3 } =
       Except.ok (UserResponse.err "Username already exists",
         [{ _id := 1, username := "user1", password := "pwOld", dateJoined := 5 }])) ∧
    (saveUserE false false [] 7 2
       { username := "user2", password := "pw", dateJoined := 3 } =
       Except.ok (UserResponse.user
         [("_id", FieldVal.nat 2), ("username", FieldVal.str "user2"),
          ("dateJoined", FieldVal.nat 7)],
         [{ _id := 2, username := "user2", password := "pw", dateJoined := 7 }])) :=
  ⟨(saveUser_create_spec
      [{ _id := 1, username := "user1", password := "pwOld", dateJoined := 5 }]
      7 2 { username := "user1", password := "pwNew", dateJoined := 3 }).1
      { _id := 1, username := "user1", password := "pwOld", dateJoined := 5 } rfl,
   (saveUser_create_spec [] 7 2
      { username := "user2", password := "pw", dateJoined := 3 }).2 rfl⟩

/-- Claim C2: loginUser returns the identical invalid-credentials error value
for an existing username with a wrong password and for a nonexistent
username, so the two failure causes are indistinguishable; with a correct
username and an exactly-equal stored password it returns the safe
projection. -/
theorem loginUser_auth_spec (db : List DbUser) (c1 c2 : UserCredentials)
    (u : DbUser) :
    (findOne db c1.username = some u → u.password ≠ c1.password →
     findOne db c2.username = none →
     (loginUserE false db c1 = loginUserE false db c2 ∧
      loginUserE false db c1 =
        Except.ok (UserResponse.err "Invalid username or password"))) ∧
    (∀ c : UserCredentials, ∀ v : DbUser, findOne db c.username = some v →
     v.password = c.password →
     loginUserE false db c = Except.ok (UserResponse.user
       [("_id", FieldVal.nat v._id), ("username", FieldVal.str v.username),
        ("dateJoined", FieldVal.nat v.dateJoined)])) := by
  constructor
  · intro h1 h2 h3
    constructor
    · simp [loginUserE, tryCatchE, findOneE, h1, h3, h2, Except.bind, Bind.bind, Pure.pure, Except.pure]
    · simp [loginUserE, tryCatchE, findOneE, h1, h2, Except.bind, Bind.bind, Pure.pure, Except.pure]
  · intro c v h1 h2
    simp [loginUserE, tryCatchE, findOneE, h1, h2, Except.bind, Bind.bind, Pure.pure, Except.pure]

/-- Witness for C2: with only user1 stored, a login as user1 with a wrong
password and a login as the absent user2 yield the same error value, and the
correct credentials yield the safe projection. -/
theorem loginUser_auth_spec_witness :
    (loginUserE false
       [{ _id := 1, username := "user1", password := "right", dateJoined := 5 }]
       { username := "user1", password := "wrong" } =
     loginUserE false
       [{ _id := 1, username := "user1", password := "right", dateJoined := 5 }]
       { username := "user2", password := "whatever" } ∧
     loginUserE false
       [{ _id := 1, username := "user1", password := "right", dateJoined := 5 }]
       { username := "user1", password := "wrong" } =
       Except.ok (UserResponse.err "Invalid username or password")) ∧
    (loginUserE false
       [{ _id := 1, username := "user1", password := "right", dateJoined := 5 }]
       { username := "user1", password := "right" } =
       Except.ok (UserResponse.user
         [("_id", FieldVal.nat 1), ("username", FieldVal.str "user1"),
          ("dateJoined", FieldVal.nat 5)])) :=
  ⟨(loginUser_auth_spec
      [{ _id := 1, username := "user1", password := "right", dateJoined := 5 }]
      { username := "user1", password := "wrong" }
      { username := "user2", password := "whatever" }
      { _id := 1, username := "user1", password := "right", dateJoined := 5 }).1
      rfl (by decide) rfl,
   (loginUser_auth_spec
      [{ _id := 1, username := "user1", password := "right", dateJoined := 5 }]
      { username := "user1", password := "wrong" }
      { username := "user2", password := "whatever" }
      { _id := 1, username := "user1", password := "right", dateJoined := 5 }).2
      { username := "user1", password := "right" }
      { _id := 1, username := "user1", password := "right", dateJoined := 5 }
      rfl rfl⟩

/-- Claim C3: getMessages returns all stored messages ordered non-decreasing
by msgDateTime (the result is a sorted permutation of the store contents), on
a store error it returns the empty sequence instead of propagating, and with
two concrete messages dated 2024-06-04 and 2024-06-05 the earlier one is
first whichever way they were inserted. -/
theorem getMessages_sorted_spec :
    (∀ db : List StoredMessage,
       getMessagesE false db = Except.ok (List.insertionSort msgDateLE db) ∧
       List.Sorted msgDateLE (List.insertionSort msgDateLE db) ∧
       (List.insertionSort msgDateLE db).Perm db) ∧
    (∀ db : List StoredMessage, getMessagesE true db = Except.ok []) ∧
    (getMessagesE false
       [{ _id := 1, msg := "Hello", msgFrom := "User1", msgDateTime := 20240604 },
        { _id := 2, msg := "Hi", msgFrom := "User2", msgDateTime := 20240605 }] =
       Except.ok
         [{ _id := 1, msg := "Hello", msgFrom := "User1", msgDateTime := 20240604 },
          { _id := 2, msg := "Hi", msgFrom := "User2", msgDateTime := 20240605 }] ∧
     getMessagesE false
       [{ _id := 2, msg := "Hi", msgFrom := "User2", msgDateTime := 20240605 },
        { _id := 1, msg := "Hello", msgFrom := "User1", msgDateTime := 20240604 }] =
       Except.ok
         [{ _id := 1, msg := "Hello", msgFrom := "User1", msgDateTime := 20240604 },
          { _id := 2, msg := "Hi", msgFrom := "User2", msgDateTime := 20240605 }]) := by
  refine ⟨fun db => ⟨?_, List.sorted_insertionSort msgDateLE db,
      List.perm_insertionSort msgDateLE db⟩, fun db => ?_, ?_, ?_⟩
  · simp [getMessagesE, tryCatchE, findSortE, Except.bind, Bind.bind, Pure.pure, Except.pure]
  · simp [getMessagesE, tryCatchE, findSortE, Except.bind, Bind.bind, Pure.pure, Except.pure]
  · rfl
  · rfl

/-- Counterexample for C4: updateUser called with a partial-fields argument
that contains a dateJoined value does change the stored dateJoined; here the
stored user joined at 100 and the update rewrites the field to 999. -/
theorem updateUser_changes_dateJoined :
    (([{ _id := 1, username := "user1", password := "pw", dateJoined := 100 }] :
        List DbUser).map DbUser.dateJoined = [100]) ∧
    updateUserE false
      [{ _id := 1, username := "user1", password := "pw", dateJoined := 100 }]
      "user1" { dateJoined := some 999 } =
      Except.ok (UserResponse.user
        [("_id", FieldVal.nat 1), ("username", FieldVal.str "user1"),
         ("dateJoined", FieldVal.nat 999)],
        [{ _id := 1, username := "user1", password := "pw", dateJoined := 999 }]) :=
  ⟨rfl, rfl⟩

/-- Auxiliary: a set operation whose payload has no dateJoined field leaves
the dateJoined of every stored document unchanged. -/
theorem updateFirst_dateJoined (db : List DbUser) (username : String)
    (upd : UserUpdates) (h : upd.dateJoined = none) :
    (updateFirst db username upd).map DbUser.dateJoined =
      db.map DbUser.dateJoined := by
  induction db with
  | nil => rfl
  | cons u rest ih =>
      by_cases hc : (u.username == username) = true
      · simp [updateFirst, hc, applySet, h]
      · simp [updateFirst, hc, ih]

/-- Claim C4 amended: dateJoined is set at creation to the current time,
ignoring the caller-supplied value, and every record a successful saveUser
adds to the store has dateJoined equal to that time; updateUser leaves every
stored dateJoined unchanged whenever its partial-fields argument does not
itself contain a dateJoined field (the only wired caller, resetPassword,
passes a password-only update). -/
theorem dateJoined_set_once :
    (∀ (ff cf : Bool) (db : List DbUser) (now newId : Nat) (user : User)
       (res : UserResponse) (db2 : List DbUser),
       saveUserE ff cf db now newId user = Except.ok (res, db2) →
       ∀ u ∈ db2, u ∈ db ∨ u.dateJoined = now) ∧
    (∀ (fault : Bool) (db : List DbUser) (username : String)
       (upd : UserUpdates), upd.dateJoined = none →
       ∀ (res : UserResponse) (db2 : List DbUser),
       updateUserE fault db username upd = Except.ok (res, db2) →
       db2.map DbUser.dateJoined = db.map DbUser.dateJoined) := by
  constructor
  · intro ff cf db now newId user res db2 h u hu
    cases ff with
    | true =>
        simp [saveUserE, tryCatchE, findOneE, Except.bind, Bind.bind,
          Pure.pure, Except.pure] at h
        exact Or.inl (h.2 ▸ hu)
    | false =>
        rcases hf : findOne db user.username with _ | v
        · cases cf with
          | true =>
              simp [saveUserE, tryCatchE, findOneE, createE, hf, Except.bind,
                Bind.bind, Pure.pure, Except.pure] at h
              exact Or.inl (h.2 ▸ hu)
          | false =>
              simp [saveUserE, tryCatchE, findOneE, createE, hf, Except.bind,
                Bind.bind, Pure.pure, Except.pure] at h
              rcases List.mem_append.mp (h.2 ▸ hu) with hl | hr
              · exact Or.inl hl
              · simp at hr
                exact Or.inr (hr ▸ rfl)
        · simp [saveUserE, tryCatchE, findOneE, hf, Except.bind, Bind.bind,
            Pure.pure, Except.pure] at h
          exact Or.inl (h.2 ▸ hu)
  · intro fault db username upd hdj res db2 h
    cases fault with
    | true =>
        simp [updateUserE, tryCatchE, findOneAndUpdateE, Except.bind,
          Bind.bind, Pure.pure, Except.pure] at h
        rw [h.2]
    | false =>
        rcases hf : findOne db username with _ | v
        · simp [updateUserE, tryCatchE, findOneAndUpdateE, hf, Except.bind,
            Bind.bind, Pure.pure, Except.pure] at h
          rw [h.2]
        · simp [updateUserE, tryCatchE, findOneAndUpdateE, hf, Except.bind,
            Bind.bind, Pure.pure, Except.pure] at h
          rw [← h.2, updateFirst_dateJoined db username upd hdj]

/-- Witness for the amended C4: a successful signup at time 7 adds only a
record joined at 7, and a password-only update leaves the stored join dates
untouched. -/
theorem dateJoined_set_once_witness :
    (∀ u ∈ ([{ _id := 2, username := "user2", password := "pw", dateJoined := 7 }] :
        List DbUser),
       u ∈ ([] : List DbUser) ∨ u.dateJoined = 7) ∧
    ([{ _id := 1, username := "user1", password := "new", dateJoined := 100 }] :
        List DbUser).map DbUser.dateJoined =
      ([{ _id := 1, username := "user1", password := "old", dateJoined := 100 }] :
        List DbUser).map DbUser.dateJoined :=
  ⟨dateJoined_set_once.1 false false [] 7 2
      { username := "user2", password := "pw", dateJoined := 3 }
      (UserResponse.user
        [("_id", FieldVal.nat 2), ("username", FieldVal.str "user2"),
         ("dateJoined", FieldVal.nat 7)])
      [{ _id := 2, username := "user2", password := "pw", dateJoined := 7 }] rfl,
   dateJoined_set_once.2 false
      [{ _id := 1, username := "user1", password := "old", dateJoined := 100 }]
      "user1" { password := some "new" } rfl
      (UserResponse.user
        [("_id", FieldVal.nat 1), ("username", FieldVal.str "user1"),
         ("dateJoined", FieldVal.nat 100)])
      [{ _id := 1, username := "user1", password := "new", dateJoined := 100 }] rfl⟩

/-- Claim C9: saveMessage stores the message with msgDateTime defaulted to
the current time when the caller supplied none and kept as supplied
otherwise, returns the stored record unprojected, and returns the tagged
Failed-to-save-message error exactly when the store create call fails. -/
theorem saveMessage_spec (db : List StoredMessage) (now newId : Nat)
    (m : Message) :
    (m.msgDateTime = none → saveMessageE false db now newId m =
       Except.ok (MessageResponse.msg
         { _id := newId, msg := m.msg, msgFrom := m.msgFrom, msgDateTime := now },
        db ++ [{ _id := newId, msg := m.msg, msgFrom := m.msgFrom, msgDateTime := now }])) ∧
    (∀ d : Nat, m.msgDateTime = some d → saveMessageE false db now newId m =
       Except.ok (MessageResponse.msg
         { _id := newId, msg := m.msg, msgFrom := m.msgFrom, msgDateTime := d },
        db ++ [{ _id := newId, msg := m.msg, msgFrom := m.msgFrom, msgDateTime := d }])) ∧
    (saveMessageE true db now newId m =
       Except.ok (MessageResponse.err "Failed to save message", db)) ∧
    (∀ (fault : Bool) (res : MessageResponse) (db2 : List StoredMessage),
       saveMessageE fault db now newId m = Except.ok (res, db2) →
       ((∃ e, res = MessageResponse.err e) ↔ fault = true)) := by
  refine ⟨fun h => ?_, fun d h => ?_, ?_, fun fault res db2 h => ?_⟩
  · simp [saveMessageE, tryCatchE, msgCreateE, h, Except.bind, Bind.bind,
      Pure.pure, Except.pure]
  · simp [saveMessageE, tryCatchE, msgCreateE, h, Except.bind, Bind.bind,
      Pure.pure, Except.pure]
  · simp [saveMessageE, tryCatchE, msgCreateE, Except.bind, Bind.bind,
      Pure.pure, Except.pure]
  · cases fault with
    | true =>
        simp [saveMessageE, tryCatchE, msgCreateE, Except.bind, Bind.bind,
          Pure.pure, Except.pure] at h
        simp [← h.1]
    | false =>
        simp [saveMessageE, tryCatchE, msgCreateE, Except.bind, Bind.bind,
          Pure.pure, Except.pure] at h
        simp [← h.1]

/-- Witness for C9: a message without a datetime is stored at the current
time 50; a message carrying datetime 42 keeps it. -/
theorem saveMessage_spec_witness :
    (saveMessageE false [] 50 1
       { msg := "Hello", msgFrom := "User1", msgDateTime := none } =
       Except.ok (MessageResponse.msg
         { _id := 1, msg := "Hello", msgFrom := "User1", msgDateTime := 50 },
        [{ _id := 1, msg := "Hello", msgFrom := "User1", msgDateTime := 50 }])) ∧
    (saveMessageE false [] 50 1
       { msg := "Hi", msgFrom := "User2", msgDateTime := some 42 } =
       Except.ok (MessageResponse.msg
         { _id := 1, msg := "Hi", msgFrom := "User2", msgDateTime := 42 },
        [{ _id := 1, msg := "Hi", msgFrom := "User2", msgDateTime := 42 }])) :=
  ⟨(saveMessage_spec [] 50 1
      { msg := "Hello", msgFrom := "User1", msgDateTime := none }).1 rfl,
   (saveMessage_spec [] 50 1
      { msg := "Hi", msgFrom := "User2", msgDateTime := some 42 }).2.1 42 rfl⟩

/-- Claim C5: for every valid addMessage request whose store write succeeds,
the route trace is exactly the store write, then one messageUpdate emit whose
payload is the persisted record, with its assigned id and resolved datetime,
then the 200 response whose body is that same persisted record; in
particular the trace contains exactly one emit effect and it follows the
store write. -/
theorem addMessage_emit_spec (db : List StoredMessage) (now newId : Nat)
    (req : AddMessageRequest) (body : MsgReqBody) (m : Message)
    (h1 : req.body = some body) (h2 : body.messageToAdd = some m)
    (h3 : isMessageValid m = true) :
    (addMessageRoute false db now newId req).1 =
      [MsgEffect.storeCreate
         { _id := newId, msg := m.msg, msgFrom := m.msgFrom,
           msgDateTime := m.msgDateTime.getD now },
       MsgEffect.emit "messageUpdate"
         { _id := newId, msg := m.msg, msgFrom := m.msgFrom,
           msgDateTime := m.msgDateTime.getD now },
       MsgEffect.respondJsonMsg 200
         { _id := newId, msg := m.msg, msgFrom := m.msgFrom,
           msgDateTime := m.msgDateTime.getD now }] ∧
    ((addMessageRoute false db now newId req).1.filter isEmitEffect).length = 1 := by
  have key : (addMessageRoute false db now newId req).1 =
      [MsgEffect.storeCreate
         { _id := newId, msg := m.msg, msgFrom := m.msgFrom,
           msgDateTime := m.msgDateTime.getD now },
       MsgEffect.emit "messageUpdate"
         { _id := newId, msg := m.msg, msgFrom := m.msgFrom,
           msgDateTime := m.msgDateTime.getD now },
       MsgEffect.respondJsonMsg 200
         { _id := newId, msg := m.msg, msgFrom := m.msgFrom,
           msgDateTime := m.msgDateTime.getD now }] := by
    simp [addMessageRoute, h1, h2, h3, saveMessageE, tryCatchE, msgCreateE,
      Except.bind, Bind.bind, Pure.pure, Except.pure]
  refine ⟨key, ?_⟩
  rw [key]
  rfl

/-- Witness for C5: posting Hello from User1 at current time 50 with store id
3 produces the write, then the single emit of the stored record, then the 200
response carrying it. -/
theorem addMessage_emit_spec_witness :
    ((addMessageRoute false [] 50 3
       { body := some ({ messageToAdd := some ({ msg := "Hello", msgFrom := "User1", msgDateTime := none } : Message) } : MsgReqBody) }).1 =
      [MsgEffect.storeCreate
         { _id := 3, msg := "Hello", msgFrom := "User1", msgDateTime := 50 },
       MsgEffect.emit "messageUpdate"
         { _id := 3, msg := "Hello", msgFrom := "User1", msgDateTime := 50 },
       MsgEffect.respondJsonMsg 200
         { _id := 3, msg := "Hello", msgFrom := "User1", msgDateTime := 50 }] ∧
     ((addMessageRoute false [] 50 3
       { body := some ({ messageToAdd := some ({ msg := "Hello", msgFrom := "User1", msgDateTime := none } : Message) } : MsgReqBody) }).1.filter
         isEmitEffect).length = 1) :=
  addMessage_emit_spec [] 50 3
    { body := some ({ messageToAdd := some ({ msg := "Hello", msgFrom := "User1", msgDateTime := none } : Message) } : MsgReqBody) }
    { messageToAdd := some ({ msg := "Hello", msgFrom := "User1", msgDateTime := none } : Message) }
    { msg := "Hello", msgFrom := "User1", msgDateTime := none }
    rfl rfl (by decide)

/-- Auxiliary: a try/catch whose handler returns normally always yields a
value; the exception cannot escape. -/
theorem tryCatchE_ok {α : Type} (body : Except StoreErr α)
    (handler : StoreErr → α) : ∃ v, tryCatchE body handler = Except.ok v := by
  cases body with
  | ok a => exact ⟨a, rfl⟩
  | error e => exact ⟨handler e, rfl⟩

/-- Claim C6: every service operation, under every store behaviour including
a thrown store exception, returns a value (a success value, a tagged error,
or a list for message listing) and never propagates the raw store exception
to its caller. -/
theorem services_never_throw :
    (∀ (ff cf : Bool) (db : List DbUser) (now newId : Nat) (u : User),
       ∃ v, saveUserE ff cf db now newId u = Except.ok v) ∧
    (∀ (f : Bool) (db : List DbUser) (un : String),
       ∃ v, getUserByUsernameE f db un = Except.ok v) ∧
    (∀ (f : Bool) (db : List DbUser) (c : UserCredentials),
       ∃ v, loginUserE f db c = Except.ok v) ∧
    (∀ (f : Bool) (db : List DbUser) (un : String),
       ∃ v, deleteUserByUsernameE f db un = Except.ok v) ∧
    (∀ (f : Bool) (db : List DbUser) (un : String) (upd : UserUpdates),
       ∃ v, updateUserE f db un upd = Except.ok v) ∧
    (∀ (f : Bool) (db : List StoredMessage) (now newId : Nat) (m : Message),
       ∃ v, saveMessageE f db now newId m = Except.ok v) ∧
    (∀ (f : Bool) (db : List StoredMessage),
       ∃ v, getMessagesE f db = Except.ok v) :=
  ⟨fun _ _ _ _ _ _ => tryCatchE_ok _ _,
   fun _ _ _ => tryCatchE_ok _ _,
   fun _ _ _ => tryCatchE_ok _ _,
   fun _ _ _ => tryCatchE_ok _ _,
   fun _ _ _ _ => tryCatchE_ok _ _,
   fun _ _ _ _ _ => tryCatchE_ok _ _,
   fun _ _ => tryCatchE_ok _ _⟩

/-- Auxiliary: the three-key safe object never carries the password key. -/
theorem safeKeys_no_password (a b c : FieldVal) :
    "password" ∉ jsonKeys [("_id", a), ("username", b), ("dateJoined", c)] := by
  simp [jsonKeys]

/-- Claim C7: on every code path of the five user service operations, a
successful result is the safe object with exactly the id, username and
dateJoined keys, so no non-error result contains a password field. -/
theorem safe_projection_no_password :
    (∀ (ff cf : Bool) (db : List DbUser) (now newId : Nat) (u : User)
       (res : UserResponse) (db2 : List DbUser) (fields : UserJson),
       saveUserE ff cf db now newId u = Except.ok (res, db2) →
       res = UserResponse.user fields → "password" ∉ jsonKeys fields) ∧
    (∀ (f : Bool) (db : List DbUser) (un : String) (fields : UserJson),
       getUserByUsernameE f db un = Except.ok (UserResponse.user fields) →
       "password" ∉ jsonKeys fields) ∧
    (∀ (f : Bool) (db : List DbUser) (c : UserCredentials) (fields : UserJson),
       loginUserE f db c = Except.ok (UserResponse.user fields) →
       "password" ∉ jsonKeys fields) ∧
    (∀ (f : Bool) (db : List DbUser) (un : String)
       (res : UserResponse) (db2 : List DbUser) (fields : UserJson),
       deleteUserByUsernameE f db un = Except.ok (res, db2) →
       res = UserResponse.user fields → "password" ∉ jsonKeys fields) ∧
    (∀ (f : Bool) (db : List DbUser) (un : String) (upd : UserUpdates)
       (res : UserResponse) (db2 : List DbUser) (fields : UserJson),
       updateUserE f db un upd = Except.ok (res, db2) →
       res = UserResponse.user fields → "password" ∉ jsonKeys fields) := by
  refine ⟨?_, ?_, ?_, ?_, ?_⟩
  · intro ff cf db now newId u res db2 fields h hres
    subst hres
    cases ff with
    | true =>
        simp [saveUserE, tryCatchE, findOneE, Except.bind, Bind.bind,
          Pure.pure, Except.pure] at h
    | false =>
        rcases hf : findOne db u.username with _ | v
        · cases cf with
          | true =>
              simp [saveUserE, tryCatchE, findOneE, createE, hf, Except.bind,
                Bind.bind, Pure.pure, Except.pure] at h
          | false =>
              simp [saveUserE, tryCatchE, findOneE, createE, hf, Except.bind,
                Bind.bind, Pure.pure, Except.pure] at h
              rw [← h.1]
              exact safeKeys_no_password _ _ _
        · simp [saveUserE, tryCatchE, findOneE, hf, Except.bind, Bind.bind,
            Pure.pure, Except.pure] at h
  · intro f db un fields h
    cases f with
    | true =>
        simp [getUserByUsernameE, tryCatchE, findOneE, Except.bind, Bind.bind,
          Pure.pure, Except.pure] at h
    | false =>
        rcases hf : findOne db un with _ | v
        · simp [getUserByUsernameE, tryCatchE, findOneE, hf, Except.bind,
            Bind.bind, Pure.pure, Except.pure] at h
        · simp [getUserByUsernameE, tryCatchE, findOneE, hf, Except.bind,
            Bind.bind, Pure.pure, Except.pure] at h
          rw [← h]
          exact safeKeys_no_password _ _ _
  · intro f db c fields h
    cases f with
    | true =>
        simp [loginUserE, tryCatchE, findOneE, Except.bind, Bind.bind,
          Pure.pure, Except.pure] at h
    | false =>
        rcases hf : findOne db c.username with _ | v
        · simp [loginUserE, tryCatchE, findOneE, hf, Except.bind, Bind.bind,
            Pure.pure, Except.pure] at h
        · by_cases hp : v.password = c.password
          · simp [loginUserE, tryCatchE, findOneE, hf, hp, Except.bind,
              Bind.bind, Pure.pure, Except.pure] at h
            rw [← h]
            exact safeKeys_no_password _ _ _
          · simp [loginUserE, tryCatchE, findOneE, hf, hp, Except.bind,
              Bind.bind, Pure.pure, Except.pure] at h
  · intro f db un res db2 fields h hres
    subst hres
    cases f with
    | true =>
        simp [deleteUserByUsernameE, tryCatchE, findOneAndDeleteE,
          Except.bind, Bind.bind, Pure.pure, Except.pure] at h
    | false =>
        rcases hf : findOne db un with _ | v
        · simp [deleteUserByUsernameE, tryCatchE, findOneAndDeleteE, hf,
            Except.bind, Bind.bind, Pure.pure, Except.pure] at h
        · simp [deleteUserByUsernameE, tryCatchE, findOneAndDeleteE, hf,
            Except.bind, Bind.bind, Pure.pure, Except.pure] at h
          rw [← h.1]
          exact safeKeys_no_password _ _ _
  · intro f db un upd res db2 fields h hres
    subst hres
    cases f with
    | true =>
        simp [updateUserE, tryCatchE, findOneAndUpdateE, Except.bind,
          Bind.bind, Pure.pure, Except.pure] at h
    | false =>
        rcases hf : findOne db un with _ | v
        · simp [updateUserE, tryCatchE, findOneAndUpdateE, hf, Except.bind,
            Bind.bind, Pure.pure, Except.pure] at h
        · simp [updateUserE, tryCatchE, findOneAndUpdateE, hf, Except.bind,
            Bind.bind, Pure.pure, Except.pure] at h
          rw [← h.1]
          exact safeKeys_no_password _ _ _

/-- Witness for C7: the safe object returned by a successful lookup of the
stored user1 does not carry the password key. -/
theorem safe_projection_no_password_witness :
    "password" ∉ jsonKeys
      [("_id", FieldVal.nat 1), ("username", FieldVal.str "user1"),
       ("dateJoined", FieldVal.nat 5)] :=
  safe_projection_no_password.2.1 false
    [{ _id := 1, username := "user1", password := "pw", dateJoined := 5 }]
    "user1"
    [("_id", FieldVal.nat 1), ("username", FieldVal.str "user1"),
     ("dateJoined", FieldVal.nat 5)] rfl

/-- Claim C8: a resetPassword request whose body has an empty or missing
password responds 400 with the plain-text Invalid-user-body message and its
trace contains no service call, so updateUser is not called. -/
theorem resetPassword_invalid_body (fault : Bool) (db : List DbUser)
    (req : UserReqBody) (h : optTruthy req.password = false) :
    resetPassword fault db req =
      ([UserEffect.respondText 400 "Invalid user body"], db) ∧
    ∀ e ∈ (resetPassword fault db req).1, isServiceCall e = false := by
  have key : resetPassword fault db req =
      ([UserEffect.respondText 400 "Invalid user body"], db) := by
    simp [resetPassword, h]
  refine ⟨key, ?_⟩
  rw [key]
  intro e he
  simp at he
  subst he
  rfl

/-- Witness for C8: the body with username user1 and an empty password is
rejected with the 400 plain-text response and no service call. -/
theorem resetPassword_invalid_body_witness :
    resetPassword false []
      { username := some "user1", password := some "" } =
      ([UserEffect.respondText 400 "Invalid user body"], []) ∧
    ∀ e ∈ (resetPassword false []
      { username := some "user1", password := some "" }).1,
      isServiceCall e = false :=
  resetPassword_invalid_body false []
    { username := some "user1", password := some "" } (by decide)

/-- Claim C10: the resetPassword validation does not trim the username: with
the body whose username is three spaces and password x, signup and login
respond 400 Invalid-user-body without calling any service, while
resetPassword passes validation and calls updateUser with the
whitespace-only username. -/
theorem reset_validation_asymmetry :
    createUser false false [] 0 1
      { username := some "   ", password := some "x" } =
      ([UserEffect.respondText 400 "Invalid user body"], []) ∧
    userLogin false [] { username := some "   ", password := some "x" } =
      [UserEffect.respondText 400 "Invalid user body"] ∧
    (resetPassword false []
      { username := some "   ", password := some "x" }).1 =
      [UserEffect.callUpdateUser "   " { password := some "x" },
       UserEffect.respondJson 404 (UserResponse.err "User not found")] := by
  refine ⟨?_, ?_, ?_⟩ <;> decide

end FakeSO
